import Mathlib

/-!
Verification of the Teams webhook relay (intent extraction, agent routing,
adaptive-card formatting, HMAC signature check).

The Lean definitions below are a shallow embedding of the Python sources:

* `teams_handler.py` : `extract_city_from_text`, `parse_message_intent`,
  `route_to_agent`, `process_teams_message` — including a backtracking
  regular-expression matcher reproducing the four `re.search` patterns.
* `adaptive_cards.py` : the five card builders, the `extract_*_info`
  helpers and `format_agent_response`, over a JSON-like value type.
* `app.py` : `verify_hmac_signature` (with a full SHA-256 / HMAC
  implementation mirroring `hashlib` and `hmac`) and the status-code
  logic of the `teams_webhook` endpoint.

Effects are made explicit: the current wall-clock strings, the result
of loading optional modules, and the agent collaborators (which may
raise) are parameters; fallible Python code is modelled with
`Except`/`Option`.
-/

/-! ## Python string primitives -/

/-- Python whitespace test for `str.strip` / `str.split` / regex class
backslash-s (ASCII range). -/
def isPySpace (c : Char) : Bool :=
  c = ' ' || c = '\t' || c = '\n' || c = '\r' || c = '\x0b' || c = '\x0c'

/-- Python `str.lower` on a character (ASCII, as exercised here). -/
def pyLowerChar (c : Char) : Char := c.toLower

/-- Python `str.lower` over the character list of a string. -/
def pyLower (l : List Char) : List Char := l.map pyLowerChar

/-- Python substring membership `sub in s` on character lists. -/
def pyIn (p l : List Char) : Bool := decide (p <:+: l)

/-- Python `str.strip`: drop whitespace at both ends. -/
def pyStrip (l : List Char) : List Char :=
  ((l.dropWhile isPySpace).reverse.dropWhile isPySpace).reverse

/-- Fuelled worker for `pySplit`; the fuel only forces structural
recursion and is always sufficient at `pySplit`. -/
def pySplitGo : Nat → List Char → List (List Char)
  | 0, _ => []
  | _ + 1, [] => []
  | fuel + 1, c :: t =>
    if isPySpace c then pySplitGo fuel t
    else (c :: t.takeWhile (fun d => !isPySpace d)) ::
      pySplitGo fuel (t.dropWhile (fun d => !isPySpace d))

/-- Python `str.split()` with no separator: maximal runs of
non-whitespace characters, empties omitted. -/
def pySplit (l : List Char) : List (List Char) := pySplitGo l.length l

/-- Python `str.capitalize`: first character upper-cased, the rest
lower-cased. -/
def pyCapitalize : List Char → List Char
  | [] => []
  | c :: t => c.toUpper :: t.map Char.toLower

/-- The city normalisation of `extract_city_from_text` (lines 48 and 55 of
`teams_handler.py`): capitalise each whitespace-separated word and join
with single spaces. -/
def normalizeCityL (l : List Char) : List Char :=
  List.intercalate [' '] ((pySplit l).map pyCapitalize)

/-- `normalizeCityL` on strings. -/
def normalizeCity (s : String) : String := ⟨normalizeCityL s.data⟩

/-- Python `str.strip` on strings. -/
def pyStripStr (s : String) : String := ⟨pyStrip s.data⟩

/-- Python `str.lower` on strings. -/
def pyLowerStr (s : String) : String := ⟨pyLower s.data⟩

/-- An apostrophe character, used in several source string literals. -/
def apos : Char := Char.ofNat 39

/-- Apostrophe as a one-character string. -/
def aposS : String := apos.toString

/-! ## A backtracking regular-expression matcher

Just enough of Python `re` semantics for the four patterns of
`extract_city_from_text`: literals, the character class `[A-Za-z\s]`,
ordered alternation, concatenation, greedy and lazy plus on a character
class, a greedy optional group, the dollar anchor, and one capturing
group.  Preference order matches CPython: alternatives left to right,
greedy plus longest first, lazy plus shortest first, leftmost start
position wins. -/

inductive RE where
  /-- A literal string. -/
  | lit : List Char → RE
  /-- A single character from a class. -/
  | cls : (Char → Bool) → RE
  /-- Ordered alternation of two branches. -/
  | alt : RE → RE → RE
  /-- Concatenation of two parts. -/
  | seq : RE → RE → RE
  /-- Lazy plus over a character class. -/
  | plusLazy : (Char → Bool) → RE
  /-- Greedy plus over a character class. -/
  | plusGreedy : (Char → Bool) → RE
  /-- Greedy optional group. -/
  | opt : RE → RE
  /-- The dollar anchor: end of input, or just before a final newline. -/
  | eos : RE
  /-- The (single) capturing group. -/
  | grp : RE → RE

/-- Lazy star over a character class, in continuation style: try the
continuation before consuming another class character. -/
def starLazyK (p : Char → Bool) (k : List Char → Option (List Char) → Option (List Char)) :
    List Char → Option (List Char) → Option (List Char)
  | s, cap =>
    (k s cap).orElse fun _ =>
      match s with
      | [] => none
      | c :: t => if p c then starLazyK p k t cap else none

/-- Greedy star over a character class, in continuation style: consume as
many class characters as possible before trying the continuation. -/
def starGreedyK (p : Char → Bool) (k : List Char → Option (List Char) → Option (List Char)) :
    List Char → Option (List Char) → Option (List Char)
  | s, cap =>
    (match s with
      | [] => none
      | c :: t => if p c then starGreedyK p k t cap else none).orElse
    fun _ => k s cap

/-- Match a pattern at the start of `s`.  The continuation receives the
remaining input and the value captured so far by the group; the final
result is the captured text of a successful overall match. -/
def matchRE : RE → List Char → Option (List Char) →
    (List Char → Option (List Char) → Option (List Char)) → Option (List Char)
  | .lit w, s, cap, k => if w.isPrefixOf s then k (s.drop w.length) cap else none
  | .cls p, s, cap, k =>
    match s with
    | c :: t => if p c then k t cap else none
    | [] => none
  | .alt r₁ r₂, s, cap, k => (matchRE r₁ s cap k).orElse fun _ => matchRE r₂ s cap k
  | .seq r₁ r₂, s, cap, k => matchRE r₁ s cap fun s' cap' => matchRE r₂ s' cap' k
  | .plusLazy p, s, cap, k =>
    match s with
    | c :: t => if p c then starLazyK p k t cap else none
    | [] => none
  | .plusGreedy p, s, cap, k =>
    match s with
    | c :: t => if p c then starGreedyK p k t cap else none
    | [] => none
  | .opt r, s, cap, k => (matchRE r s cap k).orElse fun _ => k s cap
  | .eos, s, cap, k => if s = [] ∨ s = ['\n'] then k s cap else none
  | .grp r, s, cap, k =>
    matchRE r s cap fun s' _ => k s' (some (s.take (s.length - s'.length)))

/-- Try the pattern at one start position; on success return the text of
group 1. -/
def tryMatchAt (re : RE) (s : List Char) : Option (List Char) :=
  matchRE re s none fun _ cap => some (cap.getD [])

/-- Python `re.search`: try every start position left to right. -/
def reSearch (re : RE) : List Char → Option (List Char)
  | [] => tryMatchAt re []
  | s@(_ :: t) => (tryMatchAt re s).orElse fun _ => reSearch re t

/-- Concatenation of a list of parts. -/
def reSeq (rs : List RE) : RE :=
  match rs with
  | [] => .eos
  | [r] => r
  | r :: rs => .seq r (reSeq rs)

/-- Ordered alternation of a list of branches. -/
def reAlt (rs : List RE) : RE :=
  match rs with
  | [] => .eos
  | [r] => r
  | r :: rs => .alt r (reAlt rs)

/-- The character class `[A-Za-z\s]`. -/
def clsAlphaSpace (c : Char) : Bool := c.isAlpha || isPySpace c

/-- Literal regex from a string. -/
def reLit (s : String) : RE := .lit s.data

/-- `(?:weather|time|traffic)` as it appears in the patterns. -/
def topicAlt : RE := reAlt [reLit "weather", reLit "time", reLit "traffic"]

/-- `(?:in|for|at)` as it appears in the patterns. -/
def prepAlt : RE := reAlt [reLit "in", reLit "for", reLit "at"]

/-- `\s+` (greedy). -/
def spacePlus : RE := .plusGreedy isPySpace

/-- `([A-Za-z\s]+?)(?:\?|$|\.)`: the lazy capturing group and its
terminator, shared by the first three patterns. -/
def cityGroupTail : List RE :=
  [.grp (.plusLazy clsAlphaSpace), reAlt [reLit "?", .eos, reLit "."]]

/-- Pattern 1 of `extract_city_from_text`:
`(?:weather|time|traffic)\s+(?:in|for|at)\s+([A-Za-z\s]+?)(?:\?|$|\.)`. -/
def cityPattern1 : RE :=
  reSeq ([topicAlt, spacePlus, prepAlt, spacePlus] ++ cityGroupTail)

/-- Pattern 2:
`(?:what’s|what is|whats)\s+the\s+(?:weather|time|traffic)\s+(?:in|for|at)\s+([A-Za-z\s]+?)(?:\?|$|\.)`. -/
def cityPattern2 : RE :=
  reSeq ([reAlt [reLit ("what" ++ aposS ++ "s"), reLit "what is", reLit "whats"],
    spacePlus, reLit "the", spacePlus, topicAlt, spacePlus, prepAlt, spacePlus] ++
    cityGroupTail)

/-- Pattern 3:
`(?:how’s|how is|hows)\s+(?:the\s+)?(?:weather|traffic)\s+(?:in|for|at)\s+([A-Za-z\s]+?)(?:\?|$|\.)`. -/
def cityPattern3 : RE :=
  reSeq ([reAlt [reLit ("how" ++ aposS ++ "s"), reLit "how is", reLit "hows"],
    spacePlus, .opt (.seq (reLit "the") spacePlus),
    reAlt [reLit "weather", reLit "traffic"],
    spacePlus, prepAlt, spacePlus] ++ cityGroupTail)

/-- Pattern 4: `([A-Za-z\s]+?)\s+(?:weather|time|traffic)`. -/
def cityPattern4 : RE :=
  reSeq [.grp (.plusLazy clsAlphaSpace), spacePlus, topicAlt]

/-- The ordered pattern list `common_patterns`. -/
def commonPatterns : List RE :=
  [cityPattern1, cityPattern2, cityPattern3, cityPattern4]

/-! ## teams_handler.py: city extraction and intent parsing -/

/-- The string constants of class `MessageIntent`. -/
def MessageIntent.WEATHER : String := "weather"

/-- Intent constant `TIME`. -/
def MessageIntent.TIME : String := "time"

/-- Intent constant `TRAFFIC`. -/
def MessageIntent.TRAFFIC : String := "traffic"

/-- Intent constant `HELP`. -/
def MessageIntent.HELP : String := "help"

/-- Intent constant `UNKNOWN`. -/
def MessageIntent.UNKNOWN : String := "unknown"

/-- The `default_cities` list of `extract_city_from_text`. -/
def defaultCities : List String :=
  ["new york", "los angeles", "chicago", "houston", "phoenix"]

/-- First pattern of `common_patterns` (in order) that matches the
lowercased text, with its group-1 capture. -/
def firstPatternMatch (tl : List Char) : Option (List Char) :=
  match reSearch cityPattern1 tl with
  | some g => some g
  | none =>
    match reSearch cityPattern2 tl with
    | some g => some g
    | none =>
      match reSearch cityPattern3 tl with
      | some g => some g
      | none => reSearch cityPattern4 tl

/-- First entry of `default_cities` occurring as a substring of the
lowercased text. -/
def firstDefaultCity (tl : List Char) : Option String :=
  defaultCities.find? fun city => pyIn city.data tl

/-- `extract_city_from_text` of `teams_handler.py`.  The Python signature
is `Optional[str]`, but every path returns a string ("New York" as the
final default). -/
def extract_city_from_text (text : String) : String :=
  let tl := pyLower text.data
  match firstPatternMatch tl with
  | some g => ⟨normalizeCityL (pyStrip g)⟩
  | none =>
    match firstDefaultCity tl with
    | some city => normalizeCity city
    | none => "New York"

/-- The `weather_keywords` list. -/
def weatherKeywords : List String :=
  ["weather", "temperature", "forecast", "rain", "sunny", "cloudy"]

/-- The `time_keywords` list. -/
def timeKeywords : List String :=
  ["time", "clock", "hour", "timezone", "what time"]

/-- The `traffic_keywords` list. -/
def trafficKeywords : List String :=
  ["traffic", "congestion", "roads", "commute", "driving"]

/-- The `help_keywords` list. -/
def helpKeywords : List String :=
  ["help", "hello", "hi", "hey", "start", "commands", "what can you do"]

/-- Whether some keyword of the list occurs as a substring (Python `in`)
of the given character list. -/
def kwHit (kws : List String) (l : List Char) : Bool :=
  kws.any fun k => pyIn k.data l

/-- `parse_message_intent` of `teams_handler.py`. -/
def parse_message_intent (text : String) : String × Option String :=
  if text = "" then (MessageIntent.HELP, none)
  else
    let textLower := pyStrip (pyLower text.data)
    let city := extract_city_from_text text
    if kwHit weatherKeywords textLower then (MessageIntent.WEATHER, some city)
    else if kwHit timeKeywords textLower then (MessageIntent.TIME, some city)
    else if kwHit trafficKeywords textLower then (MessageIntent.TRAFFIC, some city)
    else if kwHit helpKeywords textLower then (MessageIntent.HELP, none)
    else (MessageIntent.UNKNOWN, none)

/-! ## A JSON-like value type

Python passes dictionaries, lists, strings and booleans between the
handler and the card formatter; `JVal` is the common value type. -/

inductive JVal where
  /-- A string value. -/
  | str : String → JVal
  /-- A boolean value. -/
  | bool : Bool → JVal
  /-- A list value. -/
  | arr : List JVal → JVal
  /-- A dictionary with string keys, in insertion order. -/
  | obj : List (String × JVal) → JVal

/-- Dictionary lookup (`d[k]` / `d.get(k)` on the association list). -/
def jLookup (kvs : List (String × JVal)) (k : String) : Option JVal :=
  (kvs.find? fun kv => kv.1 == k).map Prod.snd

/-- Python `d.get(k, default)` on a `JVal` object. -/
def jGet (j : JVal) (k : String) (dflt : JVal) : JVal :=
  match j with
  | .obj kvs => (jLookup kvs k).getD dflt
  | _ => dflt

/-! ## teams_handler.py: route_to_agent -/

/-- The agent collaborators and whether their module imports.  `run`
results are `Except`: `error` stands for a raised exception. -/
structure AgentEnv where
  /-- Whether `from multi_tool_agent.agent import ...` succeeds. -/
  importOk : Bool
  /-- `weather_time_agent.run`. -/
  weatherTimeRun : String → Except String JVal
  /-- `traffic_agent.run`. -/
  trafficRun : String → Except String JVal

/-- The agent response envelope: the dictionaries built by
`route_to_agent` (`type`, optional `city`, `data`, `status`). -/
structure Envelope where
  /-- The `type` entry. -/
  type : String
  /-- The `city` entry, absent in help and error envelopes. -/
  city : Option String
  /-- The `data` entry. -/
  data : JVal
  /-- The `status` entry. -/
  status : String

/-- An error envelope with the given message, as built at lines 174-180,
184-190 and 193-199 of `teams_handler.py`. -/
def errorEnvelope (msg : String) : Envelope :=
  ⟨"error", none, .obj [("message", .str msg)], "error"⟩

/-- The static help envelope of the HELP branch of `route_to_agent`. -/
def helpEnvelope : Envelope :=
  ⟨"help", none,
    .obj [("message", .str "I can help you with weather, time, and traffic information!"),
      ("commands", .arr
        [.str ("What" ++ aposS ++ "s the weather in [city]?"),
         .str "What time is it in [city]?",
         .str ("How" ++ aposS ++ "s the traffic in [city]?")])],
    "success"⟩

/-- Python `city or "New York"`: `None` and the empty string are falsy. -/
def cityOrDefault (city : Option String) : String :=
  match city with
  | none => "New York"
  | some s => if s = "" then "New York" else s

/-- `route_to_agent` of `teams_handler.py`.  The import of
`multi_tool_agent.agent` happens first in the `try` block, so an import
failure yields the error envelope whatever the intent; an exception
raised by a `run` call yields the generic error envelope. -/
def route_to_agent (a : AgentEnv) (intent : String) (city : Option String) : Envelope :=
  if a.importOk then
    if intent == MessageIntent.WEATHER then
      let c := cityOrDefault city
      match a.weatherTimeRun ("What" ++ aposS ++ "s the weather in " ++ c ++ "?") with
      | .ok response => ⟨"weather", some c, response, "success"⟩
      | .error _ => errorEnvelope "An error occurred while processing your request"
    else if intent == MessageIntent.TIME then
      let c := cityOrDefault city
      match a.weatherTimeRun ("What time is it in " ++ c ++ "?") with
      | .ok response => ⟨"time", some c, response, "success"⟩
      | .error _ => errorEnvelope "An error occurred while processing your request"
    else if intent == MessageIntent.TRAFFIC then
      let c := cityOrDefault city
      match a.trafficRun ("How" ++ aposS ++ "s the traffic in " ++ c ++ "?") with
      | .ok response => ⟨"traffic", some c, response, "success"⟩
      | .error _ => errorEnvelope "An error occurred while processing your request"
    else if intent == MessageIntent.HELP then
      helpEnvelope
    else
      errorEnvelope ("I didn" ++ aposS ++ "t understand that. Try asking about weather, time, or traffic!")
  else
    errorEnvelope "Agent service is temporarily unavailable"

/-! ## adaptive_cards.py: extractors and card builders -/

/-- The wall-clock strings used by the formatter: `datetime.now()`
formatted as in `create_weather_card`/`create_traffic_card`, and the
New-York local time and date strings of `extract_time_info`. -/
structure Clock where
  /-- `datetime.now().strftime("%B %d, %Y at %I:%M %p")`. -/
  stamp : String
  /-- `now.strftime("%I:%M %p")` in `America/New_York`. -/
  nowTime : String
  /-- `now.strftime("%B %d, %Y")` in `America/New_York`. -/
  nowDate : String

/-- Python `info.get(k, d)` on the string-to-string dictionaries returned
by the `extract_*_info` helpers. -/
def infoGet (info : List (String × String)) (k d : String) : String :=
  ((info.find? fun kv => kv.1 == k).map Prod.snd).getD d

/-- `extract_weather_info` of `adaptive_cards.py`: a string reply becomes
the forecast (truncated to 200 characters); everything else gets the
fixed defaults. -/
def extract_weather_info (data : JVal) : List (String × String) :=
  match data with
  | .str s =>
    [("temperature", "72°F"), ("condition", "Partly Cloudy"), ("humidity", "65%"),
     ("wind_speed", "10 mph"),
     ("forecast", if s.length > 200 then ⟨s.data.take 200⟩ else s)]
  | _ =>
    [("temperature", "72°F"), ("condition", "Partly Cloudy"), ("humidity", "65%"),
     ("wind_speed", "10 mph"),
     ("forecast", "Pleasant weather expected throughout the day.")]

/-- `extract_time_info` of `adaptive_cards.py`: both branches return the
same dictionary built from the current New-York time. -/
def extract_time_info (ck : Clock) (data : JVal) : List (String × String) :=
  if (match data with
      | .str s => pyIn "time".data (pyLower s.data)
      | _ => false) then
    [("current_time", ck.nowTime), ("date", ck.nowDate), ("timezone", "EST"),
     ("utc_offset", "UTC-5")]
  else
    [("current_time", ck.nowTime), ("date", ck.nowDate), ("timezone", "EST"),
     ("utc_offset", "UTC-5")]

/-- `extract_traffic_info` of `adaptive_cards.py`. -/
def extract_traffic_info (data : JVal) : List (String × String) :=
  match data with
  | .str s =>
    if pyIn "heavy".data (pyLower s.data) then
      [("status", "Heavy"), ("average_speed", "15 mph"), ("congestion", "High"),
       ("incidents", "3 accidents reported"),
       ("recommendation", "Avoid main highways. Use alternative routes.")]
    else if pyIn "light".data (pyLower s.data) then
      [("status", "Light"), ("average_speed", "45 mph"), ("congestion", "Low"),
       ("incidents", "No incidents"),
       ("recommendation", "Good time to travel. All routes clear.")]
    else
      [("status", "Moderate"), ("average_speed", "25 mph"), ("congestion", "Medium"),
       ("incidents", "2 minor delays"),
       ("recommendation", "Consider alternative routes during peak hours.")]
  | _ =>
    [("status", "Moderate"), ("average_speed", "25 mph"), ("congestion", "Medium"),
     ("incidents", "2 minor delays"),
     ("recommendation", "Consider alternative routes during peak hours.")]

/-- The `contentType` tag of every card attachment. -/
def adaptiveContentType : String := "application/vnd.microsoft.card.adaptive"

/-- The `$schema` URL of every card. -/
def adaptiveSchema : String := "http://adaptivecards.io/schemas/adaptive-card.json"

/-- A `TextBlock` node with just `text` and `wrap`. -/
def textBlock (text : String) : JVal :=
  .obj [("type", .str "TextBlock"), ("text", .str text), ("wrap", .bool true)]

/-- Wrap card content into the attachment dictionary returned by every
builder. -/
def cardAttachment (content : JVal) : JVal :=
  .obj [("contentType", .str adaptiveContentType), ("content", content)]

/-- `create_weather_card` of `adaptive_cards.py`. -/
def create_weather_card (ck : Clock) (city : String) (data : JVal) : JVal :=
  let weatherInfo := extract_weather_info data
  cardAttachment (.obj
    [("$schema", .str adaptiveSchema),
     ("type", .str "AdaptiveCard"),
     ("version", .str "1.4"),
     ("body", .arr
       [.obj [("type", .str "Container"),
          ("items", .arr
            [.obj [("type", .str "TextBlock"), ("text", .str ("☁️ Weather in " ++ city)),
               ("weight", .str "Bolder"), ("size", .str "Large"), ("wrap", .bool true)],
             .obj [("type", .str "TextBlock"), ("text", .str ck.stamp),
               ("isSubtle", .bool true), ("size", .str "Small"), ("wrap", .bool true)]])],
        .obj [("type", .str "Container"),
          ("items", .arr
            [.obj [("type", .str "FactSet"),
               ("facts", .arr
                 [.obj [("title", .str "Temperature"),
                    ("value", .str (infoGet weatherInfo "temperature" "72°F"))],
                  .obj [("title", .str "Condition"),
                    ("value", .str (infoGet weatherInfo "condition" "Partly Cloudy"))],
                  .obj [("title", .str "Humidity"),
                    ("value", .str (infoGet weatherInfo "humidity" "65%"))],
                  .obj [("title", .str "Wind Speed"),
                    ("value", .str (infoGet weatherInfo "wind_speed" "10 mph"))]])]])],
        .obj [("type", .str "TextBlock"),
          ("text", .str (infoGet weatherInfo "forecast"
            "Pleasant weather expected throughout the day.")),
          ("wrap", .bool true), ("separator", .bool true), ("spacing", .str "Medium")]])])

/-- `create_time_card` of `adaptive_cards.py`. -/
def create_time_card (ck : Clock) (city : String) (data : JVal) : JVal :=
  let timeInfo := extract_time_info ck data
  cardAttachment (.obj
    [("$schema", .str adaptiveSchema),
     ("type", .str "AdaptiveCard"),
     ("version", .str "1.4"),
     ("body", .arr
       [.obj [("type", .str "Container"),
          ("items", .arr
            [.obj [("type", .str "TextBlock"), ("text", .str ("🕐 Time in " ++ city)),
               ("weight", .str "Bolder"), ("size", .str "Large"), ("wrap", .bool true)]])],
        .obj [("type", .str "Container"),
          ("items", .arr
            [.obj [("type", .str "TextBlock"),
               ("text", .str (infoGet timeInfo "current_time" "12:00 PM")),
               ("weight", .str "Bolder"), ("size", .str "ExtraLarge"),
               ("horizontalAlignment", .str "Center"), ("wrap", .bool true)],
             .obj [("type", .str "TextBlock"),
               ("text", .str (infoGet timeInfo "date" "January 1, 2025")),
               ("horizontalAlignment", .str "Center"), ("isSubtle", .bool true),
               ("wrap", .bool true)]])],
        .obj [("type", .str "FactSet"),
          ("facts", .arr
            [.obj [("title", .str "Timezone"),
               ("value", .str (infoGet timeInfo "timezone" "EST"))],
             .obj [("title", .str "UTC Offset"),
               ("value", .str (infoGet timeInfo "utc_offset" "UTC-5"))]]),
          ("separator", .bool true)]])])

/-- The status-to-style dictionary lookup of `create_traffic_card`. -/
def trafficStatusColor (st : String) : String :=
  if st == "Light" then "Good"
  else if st == "Moderate" then "Warning"
  else if st == "Heavy" then "Attention"
  else if st == "Severe" then "Attention"
  else "Default"

/-- `create_traffic_card` of `adaptive_cards.py`. -/
def create_traffic_card (ck : Clock) (city : String) (data : JVal) : JVal :=
  let trafficInfo := extract_traffic_info data
  let statusColor := trafficStatusColor (infoGet trafficInfo "status" "Moderate")
  cardAttachment (.obj
    [("$schema", .str adaptiveSchema),
     ("type", .str "AdaptiveCard"),
     ("version", .str "1.4"),
     ("body", .arr
       [.obj [("type", .str "Container"),
          ("items", .arr
            [.obj [("type", .str "TextBlock"), ("text", .str ("🚗 Traffic in " ++ city)),
               ("weight", .str "Bolder"), ("size", .str "Large"), ("wrap", .bool true)],
             .obj [("type", .str "TextBlock"), ("text", .str ck.stamp),
               ("isSubtle", .bool true), ("size", .str "Small"), ("wrap", .bool true)]])],
        .obj [("type", .str "Container"), ("style", .str statusColor),
          ("items", .arr
            [.obj [("type", .str "TextBlock"),
               ("text", .str ("Status: " ++ infoGet trafficInfo "status" "Moderate")),
               ("weight", .str "Bolder"), ("size", .str "Medium"), ("wrap", .bool true)]])],
        .obj [("type", .str "FactSet"),
          ("facts", .arr
            [.obj [("title", .str "Average Speed"),
               ("value", .str (infoGet trafficInfo "average_speed" "25 mph"))],
             .obj [("title", .str "Congestion Level"),
               ("value", .str (infoGet trafficInfo "congestion" "Medium"))],
             .obj [("title", .str "Incidents"),
               ("value", .str (infoGet trafficInfo "incidents" "2 minor delays"))]]),
          ("separator", .bool true)],
        .obj [("type", .str "TextBlock"),
          ("text", .str (infoGet trafficInfo "recommendation"
            "Consider alternative routes during peak hours.")),
          ("wrap", .bool true), ("separator", .bool true), ("spacing", .str "Medium")]])])

/-- A Submit action node of `create_help_card`/`create_error_card`. -/
def submitAction (title action text : String) : JVal :=
  .obj [("type", .str "Action.Submit"), ("title", .str title),
    ("data", .obj [("action", .str action), ("text", .str text)])]

/-- `create_help_card` of `adaptive_cards.py` (fully static). -/
def create_help_card : JVal :=
  cardAttachment (.obj
    [("$schema", .str adaptiveSchema),
     ("type", .str "AdaptiveCard"),
     ("version", .str "1.4"),
     ("body", .arr
       [.obj [("type", .str "Container"),
          ("items", .arr
            [.obj [("type", .str "TextBlock"),
               ("text", .str "👋 Welcome to ADK Weather Bot!"),
               ("weight", .str "Bolder"), ("size", .str "Large"), ("wrap", .bool true)],
             .obj [("type", .str "TextBlock"),
               ("text", .str "I can help you with weather, time, and traffic information for any city."),
               ("wrap", .bool true), ("spacing", .str "Medium")]])],
        .obj [("type", .str "Container"), ("separator", .bool true),
          ("items", .arr
            [.obj [("type", .str "TextBlock"), ("text", .str "**Available Commands:**"),
               ("weight", .str "Bolder"), ("wrap", .bool true)],
             textBlock ("• What" ++ aposS ++ "s the weather in [city]?"),
             textBlock "• What time is it in [city]?",
             textBlock ("• How" ++ aposS ++ "s the traffic in [city]?")])],
        .obj [("type", .str "Container"), ("separator", .bool true),
          ("items", .arr
            [.obj [("type", .str "TextBlock"), ("text", .str "**Examples:**"),
               ("weight", .str "Bolder"), ("wrap", .bool true)],
             .obj [("type", .str "TextBlock"),
               ("text", .str ("• \"What" ++ aposS ++ "s the weather in New York?\"")),
               ("wrap", .bool true), ("isSubtle", .bool true)],
             .obj [("type", .str "TextBlock"),
               ("text", .str "• \"What time is it in London?\""),
               ("wrap", .bool true), ("isSubtle", .bool true)],
             .obj [("type", .str "TextBlock"),
               ("text", .str ("• \"How" ++ aposS ++ "s traffic in Los Angeles?\"")),
               ("wrap", .bool true), ("isSubtle", .bool true)]])]]),
     ("actions", .arr
       [submitAction "Check Weather" "weather" ("What" ++ aposS ++ "s the weather in New York?"),
        submitAction "Check Time" "time" "What time is it in New York?",
        submitAction "Check Traffic" "traffic" ("How" ++ aposS ++ "s traffic in New York?")])])

/-- `create_error_card` of `adaptive_cards.py`.  The message is a `JVal`
because Python inserts whatever value reached it into the card. -/
def create_error_card (message : JVal) : JVal :=
  cardAttachment (.obj
    [("$schema", .str adaptiveSchema),
     ("type", .str "AdaptiveCard"),
     ("version", .str "1.4"),
     ("body", .arr
       [.obj [("type", .str "Container"), ("style", .str "attention"),
          ("items", .arr
            [.obj [("type", .str "TextBlock"), ("text", .str "⚠️ Error"),
               ("weight", .str "Bolder"), ("size", .str "Large"), ("wrap", .bool true)],
             .obj [("type", .str "TextBlock"), ("text", message),
               ("wrap", .bool true), ("spacing", .str "Medium")]])],
        .obj [("type", .str "Container"), ("separator", .bool true),
          ("items", .arr
            [.obj [("type", .str "TextBlock"),
               ("text", .str ("Please try again or type " ++ aposS ++ "help" ++ aposS ++ " for available commands.")),
               ("wrap", .bool true), ("isSubtle", .bool true)]])]]),
     ("actions", .arr [submitAction "Get Help" "help" "help"])])

/-- The body of `format_agent_response` inside its `try`: dispatch on the
envelope type.  The only statement there that can raise for some
envelope is `data.get("message", ...)` in the error branch, which needs
`data` to be a dictionary; `Except.error` stands for that exception. -/
def formatAgentResponseBody (ck : Clock) (response : Envelope) : Except Unit JVal :=
  if response.type == "weather" then
    .ok (create_weather_card ck (response.city.getD "Unknown") response.data)
  else if response.type == "time" then
    .ok (create_time_card ck (response.city.getD "Unknown") response.data)
  else if response.type == "traffic" then
    .ok (create_traffic_card ck (response.city.getD "Unknown") response.data)
  else if response.type == "help" then .ok create_help_card
  else if response.type == "error" then
    match response.data with
    | .obj kvs =>
      .ok (create_error_card ((jLookup kvs "message").getD (.str "An error occurred")))
    | _ => .error ()
  else
    .ok (create_error_card (.str ("I didn" ++ aposS ++ "t understand your request. Please try again.")))

/-- `format_agent_response` of `adaptive_cards.py`: the body wrapped in
the top-level `try`/`except` that degrades to the error card. -/
def format_agent_response (ck : Clock) (response : Envelope) : JVal :=
  match formatAgentResponseBody ck response with
  | .ok card => card
  | .error _ => create_error_card (.str "Failed to format response. Please try again.")

/-! ## app.py: HMAC-SHA256 signature verification

`verify_hmac_signature` calls `hmac.new(secret, body, hashlib.sha256)`;
SHA-256 (FIPS 180-4) and HMAC (RFC 2104) are implemented here over byte
lists (naturals below 256), words being naturals reduced modulo `2^32`. -/

/-- Truncate to a 32-bit word. -/
def w32 (n : Nat) : Nat := n % 4294967296

/-- Right rotation of a 32-bit word. -/
def rotr32 (k x : Nat) : Nat := w32 ((x >>> k) ||| (x <<< (32 - k)))

/-- Bitwise complement of a 32-bit word. -/
def not32 (x : Nat) : Nat := 4294967295 ^^^ x

/-- SHA-256 `Ch`. -/
def sha2Ch (x y z : Nat) : Nat := (x &&& y) ^^^ (not32 x &&& z)

/-- SHA-256 `Maj`. -/
def sha2Maj (x y z : Nat) : Nat := (x &&& y) ^^^ (x &&& z) ^^^ (y &&& z)

/-- SHA-256 big sigma 0. -/
def sha2S0 (x : Nat) : Nat := rotr32 2 x ^^^ rotr32 13 x ^^^ rotr32 22 x

/-- SHA-256 big sigma 1. -/
def sha2S1 (x : Nat) : Nat := rotr32 6 x ^^^ rotr32 11 x ^^^ rotr32 25 x

/-- SHA-256 small sigma 0. -/
def sha2s0 (x : Nat) : Nat := rotr32 7 x ^^^ rotr32 18 x ^^^ (x >>> 3)

/-- SHA-256 small sigma 1. -/
def sha2s1 (x : Nat) : Nat := rotr32 17 x ^^^ rotr32 19 x ^^^ (x >>> 10)

/-- The SHA-256 round constants (FIPS 180-4, in decimal). -/
def sha2K : List Nat :=
  [1116352408, 1899447441, 3049323471, 3921009573, 961987163, 1508970993,
   2453635748, 2870763221, 3624381080, 310598401, 607225278, 1426881987,
   1925078388, 2162078206, 2614888103, 3248222580, 3835390401, 4022224774,
   264347078, 604807628, 770255983, 1249150122, 1555081692, 1996064986,
   2554220882, 2821834349, 2952996808, 3210313671, 3336571891, 3584528711,
   113926993, 338241895, 666307205, 773529912, 1294757372, 1396182291,
   1695183700, 1986661051, 2177026350, 2456956037, 2730485921, 2820302411,
   3259730800, 3345764771, 3516065817, 3600352804, 4094571909, 275423344,
   430227734, 506948616, 659060556, 883997877, 958139571, 1322822218,
   1537002063, 1747873779, 1955562222, 2024104815, 2227730452, 2361852424,
   2428436474, 2756734187, 3204031479, 3329325298]

/-- The SHA-256 initial hash value (in decimal). -/
def sha2H0 : List Nat :=
  [1779033703, 3144134277, 1013904242, 2773480762,
   1359893119, 2600822924, 528734635, 1541459225]

/-- Big-endian 64-bit length field of the padding. -/
def lenBytes64 (n : Nat) : List Nat :=
  [n >>> 56 % 256, n >>> 48 % 256, n >>> 40 % 256, n >>> 32 % 256,
   n >>> 24 % 256, n >>> 16 % 256, n >>> 8 % 256, n % 256]

/-- SHA-256 message padding: a `0x80` byte, zeros to 56 modulo 64, then
the bit length as 64-bit big-endian. -/
def sha2Pad (msg : List Nat) : List Nat :=
  msg ++ [0x80] ++ List.replicate ((120 - (msg.length + 1) % 64) % 64) 0 ++
    lenBytes64 (8 * msg.length)

/-- Group bytes into big-endian 32-bit words. -/
def bytesToWords : List Nat → List Nat
  | a :: b :: c :: d :: rest => (a <<< 24 ||| b <<< 16 ||| c <<< 8 ||| d) :: bytesToWords rest
  | _ => []

/-- Take the given number of 64-byte blocks off the front. -/
def chunks64Go : Nat → List Nat → List (List Nat)
  | 0, _ => []
  | n + 1, l => l.take 64 :: chunks64Go n (l.drop 64)

/-- Split bytes into 64-byte blocks (the padded input length is always a
positive multiple of 64). -/
def chunks64 (l : List Nat) : List (List Nat) := chunks64Go (l.length / 64) l

/-- Extend the 16 block words by `n` further schedule words. -/
def sha2Extend (ws : List Nat) : Nat → List Nat
  | 0 => ws
  | n + 1 =>
    let i := ws.length
    sha2Extend (ws ++ [w32 (sha2s1 (ws.getD (i - 2) 0) + ws.getD (i - 7) 0 +
      sha2s0 (ws.getD (i - 15) 0) + ws.getD (i - 16) 0)]) n

/-- One SHA-256 round, over the state `(a,b,c,d,e,f,g,h)` and the pair of
round constant and schedule word. -/
def sha2Round (st : Nat × Nat × Nat × Nat × Nat × Nat × Nat × Nat) (kw : Nat × Nat) :
    Nat × Nat × Nat × Nat × Nat × Nat × Nat × Nat :=
  let (a, b, c, d, e, f, g, h) := st
  let t1 := w32 (h + sha2S1 e + sha2Ch e f g + kw.1 + kw.2)
  let t2 := w32 (sha2S0 a + sha2Maj a b c)
  (w32 (t1 + t2), a, b, c, w32 (d + t1), e, f, g)

/-- SHA-256 compression of one 64-byte block into the running hash. -/
def sha2Compress (hs : List Nat) (block : List Nat) : List Nat :=
  let ws := sha2Extend (bytesToWords block) 48
  let init := (hs.getD 0 0, hs.getD 1 0, hs.getD 2 0, hs.getD 3 0,
    hs.getD 4 0, hs.getD 5 0, hs.getD 6 0, hs.getD 7 0)
  let (a, b, c, d, e, f, g, h) := (sha2K.zip ws).foldl sha2Round init
  [w32 (hs.getD 0 0 + a), w32 (hs.getD 1 0 + b), w32 (hs.getD 2 0 + c),
   w32 (hs.getD 3 0 + d), w32 (hs.getD 4 0 + e), w32 (hs.getD 5 0 + f),
   w32 (hs.getD 6 0 + g), w32 (hs.getD 7 0 + h)]

/-- Serialise hash words back to big-endian bytes. -/
def wordsToBytes : List Nat → List Nat
  | [] => []
  | w :: rest => (w >>> 24 % 256) :: (w >>> 16 % 256) :: (w >>> 8 % 256) :: (w % 256) ::
      wordsToBytes rest

/-- SHA-256 of a byte list. -/
def sha256 (msg : List Nat) : List Nat :=
  wordsToBytes ((chunks64 (sha2Pad msg)).foldl sha2Compress sha2H0)

/-- Lower-case hexadecimal digit. -/
def hexDigit (n : Nat) : Char :=
  if n < 10 then Char.ofNat (48 + n) else Char.ofNat (87 + n)

/-- Lower-case hexadecimal rendering of bytes, as `hexdigest` returns. -/
def bytesToHex (bs : List Nat) : String :=
  ⟨bs.foldr (fun b acc => hexDigit (b >>> 4 % 16) :: hexDigit (b % 16) :: acc) []⟩

/-- HMAC-SHA256 over byte lists (RFC 2104, block size 64). -/
def hmacSha256 (key msg : List Nat) : List Nat :=
  let k0 := if key.length > 64 then sha256 key else key
  let kp := k0 ++ List.replicate (64 - k0.length) 0
  sha256 ((kp.map fun b => b ^^^ 0x5c) ++ sha256 ((kp.map fun b => b ^^^ 0x36) ++ msg))

/-- Hex digest of HMAC-SHA256, as computed by `verify_hmac_signature`. -/
def hmacSha256Hex (key msg : List Nat) : String := bytesToHex (hmacSha256 key msg)

/-- `str.encode()` for the ASCII strings involved. -/
def strBytes (s : String) : List Nat := s.data.map Char.toNat

/-- `WEBHOOK_SECRET = os.getenv(’WEBHOOK_SECRET’, ’your-webhook-secret’)`
at line 40 of `app.py`: an unset variable yields the placeholder default,
an environment value is taken as is. -/
def WEBHOOK_SECRET (env : Option String) : String := env.getD "your-webhook-secret"

/-- `verify_hmac_signature` of `app.py`: skip when the configured secret
is falsy (the empty string), else compare the header signature with the
expected hex digest (`hmac.compare_digest` on strings is string
equality in constant time). -/
def verify_hmac_signature (secret : String) (requestBody : List Nat) (signature : String) :
    Bool :=
  if secret = "" then true
  else signature == hmacSha256Hex (strBytes secret) requestBody

/-! ## teams_handler.py / app.py: message processing and the endpoint -/

mutual

/-- Python `repr` of a `JVal` (for `str()` of non-string values in the
raw-response fallback; quote-escaping details are elided since the
program only ever applies it to strings). -/
def pyRepr : JVal → String
  | .str s => aposS ++ s ++ aposS
  | .bool b => if b then "True" else "False"
  | .arr xs => "[" ++ String.intercalate ", " (pyReprList xs) ++ "]"
  | .obj kvs => "\x7b" ++ String.intercalate ", " (pyReprObj kvs) ++ "\x7d"

/-- `repr` of list elements. -/
def pyReprList : List JVal → List String
  | [] => []
  | x :: xs => pyRepr x :: pyReprList xs

/-- `repr` of dictionary items. -/
def pyReprObj : List (String × JVal) → List String
  | [] => []
  | kv :: kvs => (aposS ++ kv.1 ++ aposS ++ ": " ++ pyRepr kv.2) :: pyReprObj kvs

end

/-- Python `str()` on a `JVal`. -/
def pyStr (v : JVal) : String :=
  match v with
  | .str s => s
  | v => pyRepr v

/-- Everything outside the configuration that the webhook pipeline
depends on: module imports, the agent collaborators, whether
`asyncio.wait_for` hits the 30-second timeout, and the clock. -/
structure PipelineEnv where
  /-- Whether `from teams_handler import process_teams_message` succeeds. -/
  handlerImportOk : Bool
  /-- Whether `from adaptive_cards import format_agent_response` succeeds. -/
  cardsImportOk : Bool
  /-- The agent module and collaborators. -/
  agents : AgentEnv
  /-- Whether processing exceeds `REQUEST_TIMEOUT`. -/
  timedOut : Bool
  /-- Formatter clock strings. -/
  ck : Clock
  /-- `datetime.utcnow().isoformat()`. -/
  nowIso : String

/-- The body of `process_teams_message` inside its `try`: `Except.error`
stands for an exception (a non-string `text` value, or a non-dictionary
`from`/`conversation` value reaching an attribute access). -/
def processTeamsMessageBody (p : PipelineEnv) (payload : JVal) : Except Unit JVal := do
  let text ←
    match jGet payload "text" (.str "") with
    | .str s => pure (pyStripStr s)
    | _ => .error ()
  let userInfo := jGet payload "from" (.obj [])
  let conversation := jGet payload "conversation" (.obj [])
  match userInfo, conversation with
  | .obj _, .obj _ => pure ()
  | _, _ => .error ()
  let (intent, city) := parse_message_intent text
  let agentResponse := route_to_agent p.agents intent city
  let formattedResponse :=
    if p.cardsImportOk then format_agent_response p.ck agentResponse
    else
      .obj [("type", .str "message"),
        ("text", .str (pyStr (jGet agentResponse.data "message" (.str "Response generated"))))]
  let attachments :=
    match formattedResponse with
    | .obj kvs =>
      match jLookup kvs "attachments" with
      | some v => v
      | none => .arr [formattedResponse]
    | _ => .arr [formattedResponse]
  pure (.obj
    [("type", .str "message"),
     ("from", .obj [("id", .str "bot"), ("name", .str "ADK Weather Bot")]),
     ("conversation", conversation),
     ("recipient", userInfo),
     ("attachments", attachments),
     ("timestamp", .str p.nowIso)])

/-- `process_teams_message` of `teams_handler.py`: the body wrapped in
the top-level `try`/`except` returning the apology message. -/
def process_teams_message (p : PipelineEnv) (payload : JVal) : JVal :=
  match processTeamsMessageBody p payload with
  | .ok response => response
  | .error _ =>
    .obj [("type", .str "message"),
      ("text", .str "Sorry, I encountered an error processing your message. Please try again."),
      ("timestamp", .str p.nowIso)]

/-- Whether `payload.get("type", "")` equals `"message"` (a non-string
value is simply unequal in Python). -/
def isMessageActivity (payload : JVal) : Bool :=
  match jGet payload "type" (.str "") with
  | .str s => s == "message"
  | _ => false

/-- The `teams_webhook` endpoint of `app.py` as a status-code/body
function.  In order: signature check (401), JSON parse (400, the parse
result of the raw body is passed in as `parsedJson`), non-message
activities acknowledged (200), the `teams_handler` import (503), the
timeout (504), then the processed response (200).  A payload that is not
a dictionary raises on `payload.get` and lands in the generic handler
(500). -/
def teams_webhook (secret : String) (p : PipelineEnv) (signature : String)
    (requestBody : List Nat) (parsedJson : Option JVal) : Nat × JVal :=
  if verify_hmac_signature secret requestBody signature = false then
    (401, .obj [("detail", .str "Invalid signature")])
  else
    match parsedJson with
    | none => (400, .obj [("detail", .str "Invalid JSON payload")])
    | some payload =>
      match payload with
      | .obj _ =>
        if isMessageActivity payload = false then
          (200, .obj [("status", .str "ignored"), ("reason", .str "Not a message activity")])
        else if p.handlerImportOk = false then
          (503, .obj [("error", .str "Service temporarily unavailable")])
        else if p.timedOut then
          (504, .obj [("error", .str "Request processing timeout")])
        else
          (200, process_teams_message p payload)
      | _ =>
        (500, .obj [("error", .str "Failed to process message"), ("timestamp", .str p.nowIso)])

/-! ## Character facts for the normalisation proofs -/

theorem toNat_ofNat_valid {n : Nat} (h : n.isValidChar) : (Char.ofNat n).toNat = n := by
  simp only [Char.ofNat, h, dif_pos, Char.ofNatAux, Char.toNat, UInt32.toNat]
  simp [BitVec.toNat_ofNatLt]

theorem isPySpace_iff_toNat (c : Char) :
    isPySpace c = true ↔ c.toNat ∈ [32, 9, 10, 13, 11, 12] := by
  constructor
  · intro h
    simp only [isPySpace, Bool.or_eq_true, decide_eq_true_eq] at h
    rcases h with ((((h | h) | h) | h) | h) | h <;> subst h <;> simp [Char.toNat]
  · intro h
    have hv : c = Char.ofNat c.toNat := (Char.ofNat_toNat c).symm
    simp only [List.mem_cons, List.not_mem_nil, or_false] at h
    simp only [isPySpace, Bool.or_eq_true, decide_eq_true_eq]
    rcases h with h | h | h | h | h | h <;>
      · rw [hv, h]
        simp

theorem toUpper_eq (c : Char) :
    c.toUpper = if c.toNat >= 97 ∧ c.toNat <= 122 then Char.ofNat (c.toNat - 32) else c :=
  rfl

theorem toLower_eq (c : Char) :
    c.toLower = if c.toNat >= 65 ∧ c.toNat <= 90 then Char.ofNat (c.toNat + 32) else c :=
  rfl

theorem isPySpace_toUpper {c : Char} (h : isPySpace c = false) :
    isPySpace c.toUpper = false := by
  rw [toUpper_eq]
  by_cases hc : c.toNat >= 97 ∧ c.toNat <= 122
  · rw [if_pos hc]
    have hval : (Char.ofNat (c.toNat - 32)).toNat = c.toNat - 32 :=
      toNat_ofNat_valid (Or.inl (by omega))
    rw [← Bool.not_eq_true]
    intro hsp
    have := (isPySpace_iff_toNat _).1 hsp
    rw [hval] at this
    simp at this
    omega
  · rw [if_neg hc]
    exact h

theorem isPySpace_toLower {c : Char} (h : isPySpace c = false) :
    isPySpace c.toLower = false := by
  rw [toLower_eq]
  by_cases hc : c.toNat >= 65 ∧ c.toNat <= 90
  · rw [if_pos hc]
    have hval : (Char.ofNat (c.toNat + 32)).toNat = c.toNat + 32 :=
      toNat_ofNat_valid (Or.inl (by omega))
    rw [← Bool.not_eq_true]
    intro hsp
    have := (isPySpace_iff_toNat _).1 hsp
    rw [hval] at this
    simp at this
    omega
  · rw [if_neg hc]
    exact h

theorem toUpper_toUpper (c : Char) : c.toUpper.toUpper = c.toUpper := by
  rw [toUpper_eq c]
  by_cases hc : c.toNat >= 97 ∧ c.toNat <= 122
  · rw [if_pos hc, toUpper_eq]
    have hval : (Char.ofNat (c.toNat - 32)).toNat = c.toNat - 32 :=
      toNat_ofNat_valid (Or.inl (by omega))
    rw [if_neg]
    rw [hval]
    omega
  · rw [if_neg hc, toUpper_eq, if_neg hc]

theorem toLower_toLower (c : Char) : c.toLower.toLower = c.toLower := by
  rw [toLower_eq c]
  by_cases hc : c.toNat >= 65 ∧ c.toNat <= 90
  · rw [if_pos hc, toLower_eq]
    have hval : (Char.ofNat (c.toNat + 32)).toNat = c.toNat + 32 :=
      toNat_ofNat_valid (Or.inl (by omega))
    rw [if_neg]
    rw [hval]
    omega
  · rw [if_neg hc, toLower_eq, if_neg hc]

/-! ## pySplit equations and the normalisation round trip -/

theorem pySplitGo_fuel : ∀ f₁ f₂ (l : List Char), l.length ≤ f₁ → l.length ≤ f₂ →
    pySplitGo f₁ l = pySplitGo f₂ l := by
  intro f₁
  induction f₁ with
  | zero =>
    intro f₂ l h₁ _
    have : l = [] := List.length_eq_zero.mp (Nat.le_zero.mp h₁)
    subst this
    cases f₂ <;> rfl
  | succ f ih =>
    intro f₂ l h₁ h₂
    match f₂, l with
    | 0, l =>
      have : l = [] := List.length_eq_zero.mp (Nat.le_zero.mp h₂)
      subst this
      rfl
    | f' + 1, [] => rfl
    | f' + 1, c :: t =>
      simp only [pySplitGo]
      by_cases hc : isPySpace c
      · rw [if_pos hc, if_pos hc]
        exact ih f' t (by simp at h₁; omega) (by simp at h₂; omega)
      · rw [if_neg hc, if_neg hc]
        have hd := (List.dropWhile_sublist (l := t) fun d => !isPySpace d).length_le
        rw [ih f' (t.dropWhile fun d => !isPySpace d) (by simp at h₁; omega)
          (by simp at h₂; omega)]

theorem pySplit_nil : pySplit [] = [] := rfl

theorem pySplit_cons_space {c : Char} (t : List Char) (hc : isPySpace c = true) :
    pySplit (c :: t) = pySplit t := by
  simp only [pySplit, List.length_cons, pySplitGo, hc, if_pos]

theorem pySplit_cons_word {c : Char} (t : List Char) (hc : isPySpace c = false) :
    pySplit (c :: t) =
      (c :: t.takeWhile fun d => !isPySpace d) ::
        pySplit (t.dropWhile fun d => !isPySpace d) := by
  simp only [pySplit, List.length_cons, pySplitGo, hc, Bool.false_eq_true, if_false]
  have hd := (List.dropWhile_sublist (l := t) fun d => !isPySpace d).length_le
  rw [pySplitGo_fuel t.length (t.dropWhile fun d => !isPySpace d).length _ hd (Nat.le_refl _)]

theorem pySplitGo_words_ok : ∀ fuel (l : List Char), l.length ≤ fuel →
    ∀ w ∈ pySplitGo fuel l, w ≠ [] ∧ ∀ c ∈ w, isPySpace c = false := by
  intro fuel
  induction fuel with
  | zero => intro l _ w hw; simp [pySplitGo] at hw
  | succ f ih =>
    intro l hl w hw
    match l with
    | [] => simp [pySplitGo] at hw
    | c :: t =>
      simp only [pySplitGo] at hw
      by_cases hc : isPySpace c
      · rw [if_pos hc] at hw
        exact ih t (by simp at hl; omega) w hw
      · rw [if_neg hc] at hw
        rcases List.mem_cons.mp hw with hw | hw
        · subst hw
          refine ⟨by simp, ?_⟩
          intro d hd
          rcases List.mem_cons.mp hd with hd | hd
          · subst hd; simpa using hc
          · simpa using List.mem_takeWhile_imp hd
        · have hlen := (List.dropWhile_sublist (l := t) fun d => !isPySpace d).length_le
          exact ih _ (by simp at hl; omega) w hw

theorem pySplit_words_ok (l : List Char) :
    ∀ w ∈ pySplit l, w ≠ [] ∧ ∀ c ∈ w, isPySpace c = false :=
  pySplitGo_words_ok l.length l (Nat.le_refl _)

theorem pySplit_word_append : ∀ w l : List Char, (∀ c ∈ w, isPySpace c = false) → w ≠ [] →
    pySplit (w ++ l) =
      (w ++ l.takeWhile fun d => !isPySpace d) :: pySplit (l.dropWhile fun d => !isPySpace d)
  | [], _, _, hw => absurd rfl hw
  | [c], l, hsp, _ => by
    have hc : isPySpace c = false := hsp c (by simp)
    simpa using pySplit_cons_word l hc
  | c :: c' :: w', l, hsp, _ => by
    have hc : isPySpace c = false := hsp c (by simp)
    have hall : ∀ a ∈ c' :: w', (fun d => !isPySpace d) a = true := by
      intro a ha
      simp [hsp a (List.mem_cons_of_mem c ha)]
    have := pySplit_cons_word ((c' :: w') ++ l) hc
    rw [List.cons_append, this, List.takeWhile_append_of_pos hall,
      List.dropWhile_append_of_pos hall]
    simp

theorem pySplit_intercalate : ∀ ws : List (List Char),
    (∀ w ∈ ws, w ≠ [] ∧ ∀ c ∈ w, isPySpace c = false) →
    pySplit (List.intercalate [' '] ws) = ws
  | [], _ => by simp [List.intercalate, pySplit_nil]
  | [w], h => by
    obtain ⟨hne, hsp⟩ := h w (by simp)
    have := pySplit_word_append w [] hsp hne
    simpa [List.intercalate] using this
  | w :: w' :: ws, h => by
    obtain ⟨hne, hsp⟩ := h w (by simp)
    have hrest : pySplit (List.intercalate [' '] (w' :: ws)) = w' :: ws :=
      pySplit_intercalate (w' :: ws) fun v hv => h v (List.mem_cons_of_mem w hv)
    have hstep : List.intercalate [' '] (w :: w' :: ws) =
        w ++ ' ' :: List.intercalate [' '] (w' :: ws) := by
      simp [List.intercalate, List.intersperse_cons_cons]
    rw [hstep, pySplit_word_append w _ hsp hne]
    have hsp' : isPySpace ' ' = true := by decide
    simp only [List.takeWhile_cons, hsp', List.dropWhile_cons]
    simp [pySplit_cons_space _ hsp', hrest]

theorem pyCapitalize_ne_nil {w : List Char} (hw : w ≠ []) : pyCapitalize w ≠ [] := by
  match w with
  | [] => exact absurd rfl hw
  | c :: t => simp [pyCapitalize]

theorem pyCapitalize_spacefree {w : List Char} (hsp : ∀ c ∈ w, isPySpace c = false) :
    ∀ c ∈ pyCapitalize w, isPySpace c = false := by
  match w with
  | [] => simp [pyCapitalize]
  | c :: t =>
    intro d hd
    simp only [pyCapitalize, List.mem_cons] at hd
    rcases hd with hd | hd
    · subst hd
      exact isPySpace_toUpper (hsp c (by simp))
    · obtain ⟨e, he, rfl⟩ := List.mem_map.mp hd
      exact isPySpace_toLower (hsp e (List.mem_cons_of_mem c he))

theorem pyCapitalize_idem (w : List Char) :
    pyCapitalize (pyCapitalize w) = pyCapitalize w := by
  match w with
  | [] => rfl
  | c :: t =>
    simp only [pyCapitalize, toUpper_toUpper, List.map_map, List.cons.injEq, true_and]
    exact List.map_congr_left fun d _ => toLower_toLower d

theorem normalizeCityL_idem (l : List Char) :
    normalizeCityL (normalizeCityL l) = normalizeCityL l := by
  unfold normalizeCityL
  rw [pySplit_intercalate ((pySplit l).map pyCapitalize) ?ok]
  case ok =>
    intro w hw
    obtain ⟨v, hv, rfl⟩ := List.mem_map.mp hw
    obtain ⟨hne, hsp⟩ := pySplit_words_ok l v hv
    exact ⟨pyCapitalize_ne_nil hne, pyCapitalize_spacefree hsp⟩
  rw [List.map_map]
  exact congrArg _ (List.map_congr_left fun v _ => pyCapitalize_idem v)

/-! ## Keyword containment is insensitive to stripping

The code checks keywords against `text.lower().strip()` while the stated
properties speak about the lowercased text; the two agree because every
keyword starts and ends with a non-whitespace character. -/

theorem sub_dropWhile_iff {a : Char} {p : List Char} (ha : isPySpace a = false) :
    ∀ l : List Char, (a :: p) <:+: l.dropWhile isPySpace ↔ (a :: p) <:+: l := by
  intro l
  induction l with
  | nil => simp
  | cons c t ih =>
    by_cases hc : isPySpace c
    · rw [List.dropWhile_cons_of_pos hc, ih]
      constructor
      · exact List.infix_cons
      · intro h
        rcases List.infix_cons_iff.mp h with h | h
        · obtain ⟨rfl, _⟩ := List.cons_prefix_cons.mp h
          rw [hc] at ha
          cases ha
        · exact h
    · rw [List.dropWhile_cons_of_neg hc]

theorem sub_reverse_iff {α : Type} {x z : List α} : x <:+: z.reverse ↔ x.reverse <:+: z := by
  constructor
  · intro h
    simpa using List.reverse_infix.mpr h
  · intro h
    simpa using List.reverse_infix.mpr h

theorem sub_pyStrip_iff {a b : Char} {p q l : List Char}
    (ha : isPySpace a = false) (hb : isPySpace b = false)
    (hq : (a :: p).reverse = b :: q) :
    ((a :: p) <:+: pyStrip l) ↔ ((a :: p) <:+: l) := by
  calc (a :: p) <:+: pyStrip l
      ↔ (a :: p).reverse <:+: (l.dropWhile isPySpace).reverse.dropWhile isPySpace :=
        sub_reverse_iff
    _ ↔ (b :: q) <:+: (l.dropWhile isPySpace).reverse.dropWhile isPySpace := by rw [hq]
    _ ↔ (b :: q) <:+: (l.dropWhile isPySpace).reverse := sub_dropWhile_iff hb _
    _ ↔ (b :: q).reverse <:+: l.dropWhile isPySpace := sub_reverse_iff
    _ ↔ (a :: p) <:+: l.dropWhile isPySpace := by rw [← hq]; simp
    _ ↔ (a :: p) <:+: l := sub_dropWhile_iff ha l

/-- Non-emptiness plus non-whitespace first and last characters, the
side condition of `sub_pyStrip_iff` in checkable form. -/
def boundaryOk : List Char → Bool
  | [] => false
  | c :: t => !isPySpace c && !isPySpace (t.getLastD c)

theorem pyIn_pyStrip {k l : List Char} (hk : boundaryOk k = true) :
    pyIn k (pyStrip l) = pyIn k l := by
  match k with
  | [] => simp [boundaryOk] at hk
  | c :: t =>
    simp only [boundaryOk, Bool.and_eq_true, Bool.not_eq_true'] at hk
    obtain ⟨hc, hlast⟩ := hk
    obtain ⟨b, q, hq⟩ : ∃ b q, (c :: t).reverse = b :: q := by
      cases hx : (c :: t).reverse with
      | nil => exact absurd hx (by simp)
      | cons b q => exact ⟨b, q, rfl⟩
    have hhead : (c :: t).reverse.head? = some (t.getLastD c) := by
      rw [List.head?_reverse]
      simp [List.getLast?_cons, List.getLastD_eq_getLast?]
    rw [hq] at hhead
    simp only [List.head?_cons, Option.some.injEq] at hhead
    have hb : isPySpace b = false := by rw [hhead]; exact hlast
    simp only [pyIn, decide_eq_decide]
    exact sub_pyStrip_iff hc hb hq

theorem kwHit_pyStrip (kws : List String) (l : List Char)
    (hb : kws.all (fun k => boundaryOk k.data) = true) :
    kwHit kws (pyStrip l) = kwHit kws l := by
  unfold kwHit
  induction kws with
  | nil => rfl
  | cons k ks ih =>
    simp only [List.all_cons, Bool.and_eq_true] at hb
    simp only [List.any_cons]
    rw [pyIn_pyStrip hb.1, ih hb.2]

/-! ## Card payload schema invariant -/

/-- The Card Payload schema invariant: `contentType` is the adaptive-card
tag and `content` is an object carrying `type` "AdaptiveCard", `version`
"1.4" and a `body` list. -/
def wellFormedCard (j : JVal) : Bool :=
  match j with
  | .obj kvs =>
    (match jLookup kvs "contentType" with
      | some (.str s) => s == adaptiveContentType
      | _ => false) &&
    (match jLookup kvs "content" with
      | some (.obj c) =>
        (match jLookup c "type" with
          | some (.str s) => s == "AdaptiveCard"
          | _ => false) &&
        (match jLookup c "version" with
          | some (.str s) => s == "1.4"
          | _ => false) &&
        (match jLookup c "body" with
          | some (.arr _) => true
          | _ => false)
      | _ => false)
  | _ => false

theorem wellFormed_weather_card (ck : Clock) (city : String) (data : JVal) :
    wellFormedCard (create_weather_card ck city data) = true := rfl

theorem wellFormed_time_card (ck : Clock) (city : String) (data : JVal) :
    wellFormedCard (create_time_card ck city data) = true := rfl

theorem wellFormed_traffic_card (ck : Clock) (city : String) (data : JVal) :
    wellFormedCard (create_traffic_card ck city data) = true := rfl

theorem wellFormed_help_card : wellFormedCard create_help_card = true := rfl

theorem wellFormed_error_card (message : JVal) :
    wellFormedCard (create_error_card message) = true := rfl

theorem wellFormed_format_body (ck : Clock) (response : Envelope) (card : JVal)
    (h : formatAgentResponseBody ck response = .ok card) : wellFormedCard card = true := by
  unfold formatAgentResponseBody at h
  repeat' split at h
  all_goals cases h
  all_goals rfl

theorem wellFormed_format (ck : Clock) (response : Envelope) :
    wellFormedCard (format_agent_response ck response) = true := by
  unfold format_agent_response
  split
  · rename_i card heq
    exact wellFormed_format_body ck response card heq
  · exact wellFormed_error_card _

/-! ## Concrete stub environments used by witnesses and counterexamples -/

/-- An environment in which importing `multi_tool_agent.agent` fails. -/
def agentImportFails : AgentEnv :=
  ⟨false, fun _ => .ok (.obj []), fun _ => .ok (.obj [])⟩

/-- An environment in which the agent module imports and both runs
return an empty reply. -/
def agentImportWorks : AgentEnv :=
  ⟨true, fun _ => .ok (.obj []), fun _ => .ok (.obj [])⟩

/-- A fixed clock for concrete evaluations. -/
def clockStub : Clock := ⟨"", "", ""⟩

/-- A pipeline whose modules import but whose agent module does not. -/
def pipelineAgentDown : PipelineEnv := ⟨true, true, agentImportFails, false, clockStub, ""⟩

/-- A pipeline in which the `teams_handler` import fails. -/
def pipelineHandlerDown : PipelineEnv := ⟨false, true, agentImportFails, false, clockStub, ""⟩

/-- A minimal message-activity payload. -/
def messageOnlyPayload : JVal := .obj [("type", .str "message")]

/-- Nothing is extractable from the text: no pattern of
`common_patterns` matches its lowercased form and no entry of
`default_cities` occurs in it. -/
def noCityExtractable (text : String) : Bool :=
  (firstPatternMatch (pyLower text.data)).isNone &&
    (firstDefaultCity (pyLower text.data)).isNone

set_option maxRecDepth 100000

/-! ## The claims -/

/-- C1, counterexample: with the `WEBHOOK_SECRET` environment variable
unset, the configured secret is the placeholder `your-webhook-secret`,
which is not falsy, so verification is not skipped: the empty signature
header is rejected for the empty body. -/
theorem C1_counterexample :
    WEBHOOK_SECRET none = "your-webhook-secret" ∧
    verify_hmac_signature (WEBHOOK_SECRET none) [] "" = false := by
  exact ⟨rfl, by decide⟩

/-- C1, amended: signature verification is skipped (returns true for
every body and signature) exactly when the configured secret is the
empty string; an unset `WEBHOOK_SECRET` yields the placeholder default
`your-webhook-secret`, and verification is then performed against it. -/
theorem verify_skip_only_empty_secret (requestBody : List Nat) (signature : String) :
    verify_hmac_signature "" requestBody signature = true ∧
    WEBHOOK_SECRET none = "your-webhook-secret" :=
  ⟨rfl, rfl⟩

/-- C2, counterexample: `"  weather"` contains the weather keyword in
its lowercased form, yet `parse_message_intent` pairs the WEATHER intent
with the empty city string: the fourth pattern captures only whitespace,
which strips to the empty string. -/
theorem C2_counterexample :
    kwHit weatherKeywords (pyLower "  weather".data) = true ∧
    parse_message_intent "  weather" = (MessageIntent.WEATHER, some "") := by
  exact ⟨by decide, by decide⟩

/-- C4, counterexample: when the agent module is not importable, the
HELP intent is routed to the import-failure error envelope, not to the
static help envelope, because the import statement precedes the intent
dispatch inside the `try` block. -/
theorem C4_counterexample :
    route_to_agent agentImportFails MessageIntent.HELP none ≠ helpEnvelope := by
  intro h
  exact absurd (congrArg Envelope.type h) (by decide)

/-- C4, amended: provided the agent module imports, `route_to_agent` on
the HELP intent returns the static help envelope for every city argument
and every pair of collaborators — in particular without calling either
collaborator. -/
theorem route_help_static (a : AgentEnv) (city : Option String) (h : a.importOk = true) :
    route_to_agent a MessageIntent.HELP city = helpEnvelope := by
  simp [route_to_agent, h, MessageIntent.HELP, MessageIntent.WEATHER, MessageIntent.TIME,
    MessageIntent.TRAFFIC]

/-- C4, witness: the amended theorem at a concrete collaborator pair. -/
theorem C4_witness :
    route_to_agent agentImportWorks MessageIntent.HELP none = helpEnvelope :=
  route_help_static agentImportWorks none rfl

/-- C6: on an envelope whose data field is an empty dictionary, each of
the five builders returns a well-formed Card Payload, and the extractor
dictionaries consist exactly of the fixed placeholder values
(temperature 72°F, condition Partly Cloudy, and so on). -/
theorem builders_total_on_empty_data (ck : Clock) (city : String) (message : JVal) :
    wellFormedCard (create_weather_card ck city (.obj [])) = true ∧
    wellFormedCard (create_time_card ck city (.obj [])) = true ∧
    wellFormedCard (create_traffic_card ck city (.obj [])) = true ∧
    wellFormedCard create_help_card = true ∧
    wellFormedCard (create_error_card message) = true ∧
    extract_weather_info (.obj []) =
      [("temperature", "72°F"), ("condition", "Partly Cloudy"), ("humidity", "65%"),
       ("wind_speed", "10 mph"),
       ("forecast", "Pleasant weather expected throughout the day.")] ∧
    extract_time_info ck (.obj []) =
      [("current_time", ck.nowTime), ("date", ck.nowDate), ("timezone", "EST"),
       ("utc_offset", "UTC-5")] ∧
    extract_traffic_info (.obj []) =
      [("status", "Moderate"), ("average_speed", "25 mph"), ("congestion", "Medium"),
       ("incidents", "2 minor delays"),
       ("recommendation", "Consider alternative routes during peak hours.")] :=
  ⟨rfl, rfl, rfl, rfl, rfl, rfl, rfl, rfl⟩

/-- C7: whenever the dispatch body of `format_agent_response` raises
(modelled as `Except.error`), the top-level handler returns the error
card carrying the "Failed to format response" message, so no exception
propagates. -/
theorem format_catches_exceptions (ck : Clock) (response : Envelope)
    (h : formatAgentResponseBody ck response = .error ()) :
    format_agent_response ck response =
      create_error_card (.str "Failed to format response. Please try again.") := by
  unfold format_agent_response
  rw [h]

/-- C7, witness: an error envelope whose data is a bare string makes
`data.get` raise; the formatter returns the failure card. -/
theorem C7_witness :
    format_agent_response clockStub ⟨"error", none, .str "boom", "error"⟩ =
      create_error_card (.str "Failed to format response. Please try again.") :=
  format_catches_exceptions clockStub ⟨"error", none, .str "boom", "error"⟩ rfl

/-- C8: city normalisation (capitalise each whitespace-separated word,
join with single spaces) is idempotent on every string. -/
theorem normalize_city_idempotent (s : String) : normalizeCity (normalizeCity s) = normalizeCity s :=
  congrArg String.mk (normalizeCityL_idem s.data)

/-- C9: every Card Payload produced by `format_agent_response`, and the
output of each of the five builders, satisfies the schema invariant:
`contentType` is the adaptive-card tag and `content` carries type
"AdaptiveCard", version "1.4" and a body list. -/
theorem card_schema_invariant (ck : Clock) (response : Envelope) (city : String) (data message : JVal) :
    wellFormedCard (format_agent_response ck response) = true ∧
    wellFormedCard (create_weather_card ck city data) = true ∧
    wellFormedCard (create_time_card ck city data) = true ∧
    wellFormedCard (create_traffic_card ck city data) = true ∧
    wellFormedCard create_help_card = true ∧
    wellFormedCard (create_error_card message) = true :=
  ⟨wellFormed_format ck response, rfl, rfl, rfl, rfl, rfl⟩

/-- C10: every envelope returned by `route_to_agent` — for every intent
string, every city argument and every collaborator behaviour — has a
type among weather, time, traffic, help, error, and its status is
"error" exactly when its type is "error" (and "success" otherwise). -/
theorem route_envelope_invariant (a : AgentEnv) (intent : String) (city : Option String) :
    ((route_to_agent a intent city).type = "weather" ∨
     (route_to_agent a intent city).type = "time" ∨
     (route_to_agent a intent city).type = "traffic" ∨
     (route_to_agent a intent city).type = "help" ∨
     (route_to_agent a intent city).type = "error") ∧
    ((route_to_agent a intent city).status = "error" ↔
     (route_to_agent a intent city).type = "error") ∧
    ((route_to_agent a intent city).type ≠ "error" →
     (route_to_agent a intent city).status = "success") := by
  unfold route_to_agent
  split
  · split
    · rcases hr : a.weatherTimeRun
          ("What" ++ aposS ++ "s the weather in " ++ cityOrDefault city ++ "?") with r | r <;>
        simp [hr, errorEnvelope]
    · split
      · rcases hr : a.weatherTimeRun ("What time is it in " ++ cityOrDefault city ++ "?")
            with r | r <;>
          simp [hr, errorEnvelope]
      · split
        · rcases hr : a.trafficRun
              ("How" ++ aposS ++ "s the traffic in " ++ cityOrDefault city ++ "?") with r | r <;>
            simp [hr, errorEnvelope]
        · split
          · simp [helpEnvelope]
          · simp [errorEnvelope]
  · simp [errorEnvelope]

/-- With a weather keyword in the lowercased text,
`parse_message_intent` returns the WEATHER intent paired with the
extracted city. -/
theorem parse_weather_eq (text : String)
    (h : kwHit weatherKeywords (pyLower text.data) = true) :
    parse_message_intent text = (MessageIntent.WEATHER, some (extract_city_from_text text)) := by
  have hne : text ≠ "" := by
    intro he
    subst he
    exact absurd h (by decide)
  have hb : kwHit weatherKeywords (pyStrip (pyLower text.data)) = true := by
    rw [kwHit_pyStrip _ _ (by decide)]
    exact h
  unfold parse_message_intent
  rw [if_neg hne]
  simp only [hb, if_true]

/-- When no pattern matches and no default city occurs,
`extract_city_from_text` falls back to "New York". -/
theorem extract_city_default (text : String) (h : noCityExtractable text = true) :
    extract_city_from_text text = "New York" := by
  unfold noCityExtractable at h
  simp only [Bool.and_eq_true, Option.isNone_iff_eq_none] at h
  unfold extract_city_from_text
  simp only [h.1, h.2]

/-- C2, amended: for every text whose lowercased form contains a weather
keyword, `parse_message_intent` returns the WEATHER intent paired with a
city string — "New York" when nothing is extractable; the city may be
the empty string when a pattern match captures only whitespace. -/
theorem weather_intent_city (text : String)
    (h : kwHit weatherKeywords (pyLower text.data) = true) :
    (∃ c : String, parse_message_intent text = (MessageIntent.WEATHER, some c)) ∧
    (noCityExtractable text = true →
      parse_message_intent text = (MessageIntent.WEATHER, some "New York")) := by
  have hp := parse_weather_eq text h
  refine ⟨⟨extract_city_from_text text, hp⟩, ?_⟩
  intro hno
  rw [hp, extract_city_default text hno]

/-- C2, witness: on the bare text "weather" nothing is extractable and
the fallback city "New York" is returned with the WEATHER intent. -/
theorem C2_witness :
    parse_message_intent "weather" = (MessageIntent.WEATHER, some "New York") :=
  (weather_intent_city "weather" (by decide)).2 (by decide)

/-- C5: on every non-empty text, `parse_message_intent` scans the four
keyword lists in the priority order weather, time, traffic, help and
returns the first category with a keyword in the lowercased text; when
no keyword of any list occurs it returns UNKNOWN with no city. -/
theorem parse_priority_order (text : String) (hne : text ≠ "") :
    (kwHit weatherKeywords (pyLower text.data) = true →
      (parse_message_intent text).1 = MessageIntent.WEATHER) ∧
    (kwHit weatherKeywords (pyLower text.data) = false →
      kwHit timeKeywords (pyLower text.data) = true →
      (parse_message_intent text).1 = MessageIntent.TIME) ∧
    (kwHit weatherKeywords (pyLower text.data) = false →
      kwHit timeKeywords (pyLower text.data) = false →
      kwHit trafficKeywords (pyLower text.data) = true →
      (parse_message_intent text).1 = MessageIntent.TRAFFIC) ∧
    (kwHit weatherKeywords (pyLower text.data) = false →
      kwHit timeKeywords (pyLower text.data) = false →
      kwHit trafficKeywords (pyLower text.data) = false →
      kwHit helpKeywords (pyLower text.data) = true →
      parse_message_intent text = (MessageIntent.HELP, none)) ∧
    (kwHit weatherKeywords (pyLower text.data) = false →
      kwHit timeKeywords (pyLower text.data) = false →
      kwHit trafficKeywords (pyLower text.data) = false →
      kwHit helpKeywords (pyLower text.data) = false →
      parse_message_intent text = (MessageIntent.UNKNOWN, none)) := by
  have hw := kwHit_pyStrip weatherKeywords (pyLower text.data) (by decide)
  have ht := kwHit_pyStrip timeKeywords (pyLower text.data) (by decide)
  have htr := kwHit_pyStrip trafficKeywords (pyLower text.data) (by decide)
  have hh := kwHit_pyStrip helpKeywords (pyLower text.data) (by decide)
  unfold parse_message_intent
  rw [if_neg hne]
  refine ⟨?_, ?_, ?_, ?_, ?_⟩
  · intro h1
    simp only [hw, h1, if_true]
  · intro h1 h2
    simp only [hw, ht, h1, h2, Bool.false_eq_true, if_false, if_true]
  · intro h1 h2 h3
    simp only [hw, ht, htr, h1, h2, h3, Bool.false_eq_true, if_false, if_true]
  · intro h1 h2 h3 h4
    simp only [hw, ht, htr, hh, h1, h2, h3, h4, Bool.false_eq_true, if_false, if_true]
  · intro h1 h2 h3 h4
    simp only [hw, ht, htr, hh, h1, h2, h3, h4, Bool.false_eq_true, if_false]

/-- C5, witness: the text "zzz" is non-empty and contains no keyword of
any list, so the intent is UNKNOWN with no city. -/
theorem C5_witness :
    parse_message_intent "zzz" = (MessageIntent.UNKNOWN, none) :=
  (parse_priority_order "zzz" (by decide)).2.2.2.2 (by decide) (by decide) (by decide) (by decide)

/-- C3, counterexample: with every module importable except the agent
module, a message activity still completes with status 200 (carrying an
error card), not 503: the 503 branch concerns only the import of the
`teams_handler` module. -/
theorem C3_counterexample :
    pipelineAgentDown.agents.importOk = false ∧
    (teams_webhook "" pipelineAgentDown "" [] (some messageOnlyPayload)).1 = 200 := by
  exact ⟨rfl, by decide⟩

/-- C3, amended: on a signed message activity, the endpoint returns 503
exactly when the `teams_handler` module is not importable; otherwise a
non-timed-out request is answered with 200 whatever the agent module and
collaborators do (an agent import failure degrades to an error
envelope inside the 200 response). -/
theorem webhook_unavailable_status (secret : String) (p : PipelineEnv) (signature : String)
    (requestBody : List Nat) (kvs : List (String × JVal))
    (hsig : verify_hmac_signature secret requestBody signature = true)
    (hmsg : isMessageActivity (.obj kvs) = true) :
    (p.handlerImportOk = false →
      (teams_webhook secret p signature requestBody (some (.obj kvs))).1 = 503) ∧
    (p.handlerImportOk = true → p.timedOut = false →
      (teams_webhook secret p signature requestBody (some (.obj kvs))).1 = 200) := by
  unfold teams_webhook
  constructor
  · intro hh
    simp [hsig, hmsg, hh]
  · intro hh htm
    simp [hsig, hmsg, hh, htm]

/-- C3, witness: the amended theorem at a concrete request with the
`teams_handler` import failing: status 503. -/
theorem C3_witness :
    (teams_webhook "" pipelineHandlerDown "" [] (some messageOnlyPayload)).1 = 503 :=
  (webhook_unavailable_status "" pipelineHandlerDown "" [] [("type", .str "message")]
    (by decide) (by decide)).1 rfl
